import Mathlib

set_option maxHeartbeats 1000000

/-!
Shallow embedding of the `leneda_monthly-stats` repository.

`get_monthly_data.py` provides `MonthlyEnergyDataFetcher`: OBIS-code
classification (`__init__`), period resolution (`calculate_month_dates`),
the per-call fetch (`fetch_metering_data`), the roster iteration
(`fetch_all_data`), the period-scoped persistence (`save_to_database`)
and the wide-format pivot (`create_wide_format_dataframe`).
`analyse_monthly_data.py` provides the ratio derivation (`calculate_ratios`).

Floating point values are modelled as rationals; SQLite tables are lists of
rows without the synthetic `id`/`created_at` columns; the HTTP layer is an
oracle value describing the response of one request.
-/

/-- Rounding to two decimal places, `round(v, 2)` as used on stored values. -/
def round2 (v : ℚ) : ℚ := (round (v * 100) : ℚ) / 100

/-- Insert into a sorted list (helper of `sortLe`). -/
def insertLe {α : Type} (le : α → α → Bool) (a : α) : List α → List α
  | [] => [a]
  | b :: l => if le a b then a :: b :: l else b :: insertLe le a l

/-- Insertion sort, modelling the sorted key order of `pandas.groupby` and
`list.sort()`. -/
def sortLe {α : Type} (le : α → α → Bool) : List α → List α
  | [] => []
  | a :: l => insertLe le a (sortLe le l)

/-- Lexicographic comparison of strings as a Bool relation. -/
def strLe (a b : String) : Bool := compare a b != Ordering.gt

/-- Lexicographic comparison of string triples (pandas groupby key order). -/
def str3Le (a b : String × String × String) : Bool :=
  match compare a.1 b.1 with
  | .lt => true
  | .gt => false
  | .eq =>
    match compare a.2.1 b.2.1 with
    | .lt => true
    | .gt => false
    | .eq => compare a.2.2 b.2.2 != Ordering.gt

/-- Python dict assignment `d[k] = v`: replace in place, else append. -/
def dictInsert {β : Type} (d : List (String × β)) (k : String) (v : β) :
    List (String × β) :=
  if d.any (fun p => p.1 == k) then
    d.map (fun p => if p.1 == k then (k, v) else p)
  else d ++ [(k, v)]

/-- Splitting a character list at every occurrence of a separator character,
Python `str.split(sep)` for a one-character separator. -/
def charSplit (c : Char) : List Char → List (List Char)
  | [] => [[]]
  | a :: rest =>
    match charSplit c rest with
    | [] => [[a]]
    | h :: t => if a = c then [] :: h :: t else (a :: h) :: t

/-- Whether the second character list starts with the first one. -/
def charsLeadWith : List Char → List Char → Bool
  | [], _ => true
  | _ :: _, [] => false
  | p :: ps, s :: ss => p == s && charsLeadWith ps ss

/-- Whether a character list contains another as a contiguous segment. -/
def charsContain : List Char → List Char → Bool
  | [], sub => sub.isEmpty
  | a :: rest, sub => charsLeadWith sub (a :: rest) || charsContain rest sub

/-- Python substring test `sub in s`. -/
def containsSub (s sub : String) : Bool := charsContain s.toList sub.toList

/-- Python `s.startswith(pre)`. -/
def strLeadsWith (s pre : String) : Bool := charsLeadWith pre.toList s.toList

/-- One entry of `config['obiscode']`: `[code, category, description]`. -/
structure ObisInfo where
  code : String
  category : String
  description : String
deriving DecidableEq

/-- The character `obis_code.split(':')[1][0]`: the first character of the
segment after the first colon, `none` when Python would raise `IndexError`. -/
def firstDigit (code : String) : Option Char :=
  match charSplit ':' code.toList with
  | _ :: seg :: _ => seg.head?
  | _ => none

/-- The classification loop of `MonthlyEnergyDataFetcher.__init__`: appends a
code to `consumption_codes` when the digit after the first colon is `1`, to
`production_codes` when it is `2`, silently skips other digits, and fails
(Python `IndexError`) when the code has no segment after a colon. -/
def initCodes : List ObisInfo → List ObisInfo × List ObisInfo →
    Except String (List ObisInfo × List ObisInfo)
  | [], acc => .ok acc
  | i :: rest, acc =>
    if firstDigit i.code = none then .error "IndexError"
    else if firstDigit i.code = some '1' then initCodes rest (acc.1 ++ [i], acc.2)
    else if firstDigit i.code = some '2' then initCodes rest (acc.1, acc.2 ++ [i])
    else initCodes rest acc

/-- One aggregated point of the JSON payload (`aggregatedTimeSeries[i]`). -/
structure TimePoint where
  value : Option ℚ
  startedAt : Option String
  endedAt : Option String
  calculated : Option Bool
  type : Option String
deriving DecidableEq

/-- The body of an HTTP response: either not valid JSON, or a parsed payload
with its (possibly missing) `aggregatedTimeSeries` array and `unit` field. -/
inductive ApiBody where
  | malformed : ApiBody
  | parsed (aggregatedTimeSeries : List TimePoint) (unit : Option String) : ApiBody
deriving DecidableEq

/-- The observable result of one `requests.get` call. -/
inductive HttpResult where
  | timeout : HttpResult
  | requestError : HttpResult
  | response (status : Nat) (body : ApiBody) : HttpResult
deriving DecidableEq

/-- `MonthlyEnergyDataFetcher.fetch_metering_data`: returns the parsed payload
only for a 200 response whose JSON parses and carries a non-empty
`aggregatedTimeSeries`; every other outcome (404, other status, timeout,
request error, invalid JSON, empty series) returns `None`. -/
def fetch_metering_data (r : HttpResult) : Option ApiBody :=
  match r with
  | .timeout => none
  | .requestError => none
  | .response status body =>
    if status = 404 then none
    else if status ≠ 200 then none
    else
      match body with
      | .malformed => none
      | .parsed ts u => if ts.isEmpty then none else some (.parsed ts u)

/-- One row of the long-form DataFrame built by `fetch_all_data`. -/
structure MeteringRecord where
  year : Int
  month : Int
  start_date : String
  end_date : String
  entity_type : String
  entity_name : String
  meter_id : String
  obis_code : String
  obis_category : String
  obis_description : String
  value : Option ℚ
  unit : Option String
  started_at : Option String
  ended_at : Option String
  calculated : Option Bool
  type : Option String
  data_available : Bool
deriving DecidableEq

/-- Materialisation of one row of `fetch_all_data`: defaults with
`data_available = False`, overwritten from the first aggregated point when the
fetch returned data. -/
def rowOf (y m : Int) (sd ed : String) (etype name mid : String)
    (oi : ObisInfo) (data : Option ApiBody) : MeteringRecord :=
  let base : MeteringRecord :=
    { year := y, month := m, start_date := sd, end_date := ed,
      entity_type := etype, entity_name := name, meter_id := mid,
      obis_code := oi.code, obis_category := oi.category,
      obis_description := oi.description,
      value := none, unit := none, started_at := none, ended_at := none,
      calculated := none, type := none, data_available := false }
  match data with
  | some (.parsed (p :: _) u) =>
      { base with
        value := p.value, started_at := p.startedAt,
        ended_at := p.endedAt, calculated := p.calculated, type := p.type,
        unit := u, data_available := true }
  | _ => base

/-- `MonthlyEnergyDataFetcher.fetch_all_data`: every consumer (zip of names and
meters) against every consumption code, then every producer against every
production code; one row is appended per pair whatever the call returned. -/
def fetch_all_data (cnames cmeters pnames pmeters : List String)
    (cc pc : List ObisInfo) (y m : Int) (sd ed : String)
    (http : String → String → HttpResult) : List MeteringRecord :=
  ((cnames.zip cmeters).map (fun nm =>
      cc.map (fun oi =>
        rowOf y m sd ed "consumer" nm.1 nm.2 oi
          (fetch_metering_data (http nm.2 oi.code))))).flatten
  ++ ((pnames.zip pmeters).map (fun nm =>
      pc.map (fun oi =>
        rowOf y m sd ed "producer" nm.1 nm.2 oi
          (fetch_metering_data (http nm.2 oi.code))))).flatten

/-- One row of the `metering_data` table (without the synthetic `id` and
`created_at` columns); `value` is `REAL NOT NULL`, so a `none` value can never
be committed (see `valuesOkB`). -/
structure DetailRow where
  year : Int
  month : Int
  entity_type : String
  entity_name : String
  meter_id : String
  obis_code : String
  obis_category : String
  obis_description : String
  value : Option ℚ
  unit : Option String
  started_at : Option String
  ended_at : Option String
  calculated : Option Bool
  type : Option String
deriving DecidableEq

/-- One row of the `monthly_summaries` table (without `id`/`created_at`). -/
structure SummaryRow where
  year : Int
  month : Int
  obis_code : String
  obis_category : String
  obis_description : String
  total_value : ℚ
  num_meters : Nat
  unit : Option String
deriving DecidableEq

/-- The SQLite store: both tables. -/
structure Store where
  metering_data : List DetailRow
  monthly_summaries : List SummaryRow
deriving DecidableEq

/-- The `UNIQUE(year, month, meter_id, obis_code)` key of `metering_data`. -/
def dKey (r : DetailRow) : Int × Int × String × String :=
  (r.year, r.month, r.meter_id, r.obis_code)

/-- The `UNIQUE(year, month, obis_code)` key of `monthly_summaries`. -/
def sKey (r : SummaryRow) : Int × Int × String :=
  (r.year, r.month, r.obis_code)

/-- `DELETE FROM metering_data WHERE year = ? AND month = ?`. -/
def delMd (l : List DetailRow) (y m : Int) : List DetailRow :=
  l.filter fun r => !(r.year == y && r.month == m)

/-- `DELETE FROM monthly_summaries WHERE year = ? AND month = ?`. -/
def delMs (l : List SummaryRow) (y m : Int) : List SummaryRow :=
  l.filter fun r => !(r.year == y && r.month == m)

/-- `value REAL NOT NULL`: an insert binding a missing value fails. -/
def valuesOkB (newD : List DetailRow) : Bool := newD.all fun r => r.value.isSome

/-- No two new rows share a key (pairwise `UNIQUE` check among the inserts). -/
def nodupBy {α β : Type} [DecidableEq β] (f : α → β) : List α → Bool
  | [] => true
  | a :: l => (!(l.any fun b => f b == f a)) && nodupBy f l

/-- No new row collides with a row already in the table. -/
def disjointByD (tbl newD : List DetailRow) : Bool :=
  newD.all fun n => tbl.all fun t => !(dKey t == dKey n)

/-- No new summary collides with a summary already in the table. -/
def disjointByS (tbl newS : List SummaryRow) : Bool :=
  newS.all fun n => tbl.all fun t => !(sKey t == sKey n)

/-- All constraints the SQLite inserts of `save_to_database` must satisfy; if
any insert fails the whole transaction is rolled back. -/
def insertOkB (md : List DetailRow) (ms : List SummaryRow)
    (newD : List DetailRow) (newS : List SummaryRow) : Bool :=
  valuesOkB newD && nodupBy dKey newD && disjointByD md newD &&
    nodupBy sKey newS && disjointByS ms newS

/-- The transactional body of `save_to_database`: delete both tables for the
period, insert the new detail rows and summaries, and commit; on any
constraint failure roll everything back, leaving the store unchanged. -/
def upsertCore (s : Store) (y m : Int) (newD : List DetailRow)
    (newS : List SummaryRow) : Store :=
  let md := delMd s.metering_data y m
  let ms := delMs s.monthly_summaries y m
  if insertOkB md ms newD newS then ⟨md ++ newD, ms ++ newS⟩ else s

/-- `df_with_data['value'] = df_with_data['value'].round(2)`. -/
def roundRecord (r : MeteringRecord) : MeteringRecord :=
  { r with value := r.value.map round2 }

/-- The columns of one `INSERT INTO metering_data` statement. -/
def detailRowOf (r : MeteringRecord) : DetailRow :=
  { year := r.year, month := r.month, entity_type := r.entity_type,
    entity_name := r.entity_name, meter_id := r.meter_id,
    obis_code := r.obis_code, obis_category := r.obis_category,
    obis_description := r.obis_description, value := r.value, unit := r.unit,
    started_at := r.started_at, ended_at := r.ended_at,
    calculated := r.calculated, type := r.type }

/-- The `groupby(['obis_code', 'obis_category', 'obis_description'])` key. -/
def summaryKeyOf (r : MeteringRecord) : String × String × String :=
  (r.obis_code, r.obis_category, r.obis_description)

/-- The distinct group keys in the sorted order pandas `groupby` yields. -/
def groupKeysSorted (l : List MeteringRecord) : List (String × String × String) :=
  sortLe str3Le (l.map summaryKeyOf).dedup

/-- The summary rows `save_to_database` computes from the filtered detail set:
`value` is aggregated with `sum` (then rounded once more at insert time),
`entity_name` with `count` (the number of non-null rows of the group) and
`unit` with `first` (the first non-null unit). -/
def summariesOf (y m : Int) (withData : List MeteringRecord) : List SummaryRow :=
  (groupKeysSorted withData).map fun k =>
    let grp := withData.filter fun r => summaryKeyOf r == k
    { year := y, month := m, obis_code := k.1, obis_category := k.2.1,
      obis_description := k.2.2,
      total_value := round2 ((grp.filterMap fun r => r.value).sum),
      num_meters := grp.length,
      unit := (grp.filterMap fun r => r.unit).head? }

/-- `MonthlyEnergyDataFetcher.save_to_database`: keep only rows with
`data_available == True`, round their values; if nothing remains return
without touching the store; otherwise replace the period's rows of both
tables inside one transaction. -/
def save_to_database (s : Store) (df : List MeteringRecord)
    (year month : Int) : Store :=
  let df_with_data := (df.filter fun r => r.data_available).map roundRecord
  if df_with_data.isEmpty then s
  else upsertCore s year month (df_with_data.map detailRowOf)
    (summariesOf year month df_with_data)

/-- `calendar.isleap`. -/
def isLeap (y : Int) : Bool := (y % 4 == 0 && y % 100 != 0) || y % 400 == 0

/-- The last day of the month, `calendar.monthrange(year, month)[1]` (defined
on valid months only; callers check the range first). -/
def monthLastDay (y mo : Int) : Int :=
  if mo = 2 then (if isLeap y then 29 else 28)
  else if mo = 4 ∨ mo = 6 ∨ mo = 9 ∨ mo = 11 then 30
  else 31

/-- Zero padding of a non-negative number, `f"{n:02d}"` / `f"{n:04d}"`. -/
def padNum (width : Nat) (n : Int) : String :=
  if n < 0 then toString n
  else
    let s := toString n.toNat
    String.mk (List.replicate (width - s.length) '0') ++ s

/-- The tuple `calculate_month_dates` returns. -/
structure MonthDates where
  start_date : String
  end_date : String
  year : Int
  month : Int
deriving DecidableEq

/-- `MonthlyEnergyDataFetcher.calculate_month_dates`: today is `(ty, tm)`;
an omitted month resolves to the month preceding the current one (via
`today.replace(day=1) - timedelta(days=1)`), adjusting an omitted year to
`today.year - 1` when that month is December; an omitted year otherwise
resolves to the current year; `calendar.monthrange` raises `IllegalMonthError`
for a supplied month outside 1..12. -/
def calculate_month_dates (ty tm : Int) (year month : Option Int) :
    Except String MonthDates :=
  let ym : Option Int × Int :=
    match month with
    | none =>
      let pm := if tm = 1 then 12 else tm - 1
      let y := if pm = 12 ∧ year = none then some (ty - 1) else year
      (y, pm)
    | some m => (year, m)
  let y := ym.1.getD ty
  let mo := ym.2
  if mo < 1 ∨ 12 < mo then .error "InvalidMonth"
  else
    .ok { start_date := padNum 4 y ++ "-" ++ padNum 2 mo ++ "-" ++ padNum 2 1,
          end_date := padNum 4 y ++ "-" ++ padNum 2 mo ++ "-" ++
            padNum 2 (monthLastDay y mo),
          year := y, month := mo }

/-- One data row of the wide-format DataFrame: the identity columns plus the
Python dict of OBIS-code cells accumulated from the group's records. -/
structure WideRow where
  entity_type : String
  name : String
  metering_point : String
  year : Int
  month : Int
  cells : List (String × Option ℚ)
deriving DecidableEq

/-- The value of a code column in a data row: `none` is a pandas `NaN` cell
(the row's group had no record for the code, or the record's value was null);
`pd.DataFrame.reindex` with `fill_value=0` never rewrites such cells because
every code column already exists in the frame. -/
def cellValue (w : WideRow) (col : String) : Option ℚ :=
  (w.cells.lookup col).join

/-- The wide-format DataFrame: the per-meter data rows followed by the `TOTAL`
and `DESCRIPTION` trailer rows (kept as separate components). -/
structure WideTable where
  dataRows : List WideRow
  consumption_cols : List String
  production_cols : List String
  totalsRow : List (String × ℚ)
  descriptionRow : List (String × String)
deriving DecidableEq

/-- The `groupby(['entity_type', 'entity_name', 'meter_id'])` key. -/
def wideKeyOf (r : MeteringRecord) : String × String × String :=
  (r.entity_type, r.entity_name, r.meter_id)

/-- One pivot row of `create_wide_format_dataframe`. -/
def wideRowFor (l : List MeteringRecord) (k : String × String × String) :
    WideRow :=
  let grp := l.filter fun r => wideKeyOf r == k
  { entity_type := k.1, name := k.2.1, metering_point := k.2.2,
    year := (grp.head?.map fun r => r.year).getD 0,
    month := (grp.head?.map fun r => r.month).getD 0,
    cells := grp.foldl (fun d r => dictInsert d r.obis_code r.value) [] }

/-- `MonthlyEnergyDataFetcher.create_wide_format_dataframe`: empty output when
no record is available; otherwise one row per metering point built from the
rounded available records, the code columns split into consumption codes
(`'1-'` prefix and `':1.'` inside) and production codes (`':2.'`), each sorted,
a totals row summing each code column over the data rows (pandas `sum` skips
`NaN` cells) and a description row looked up in `config['obiscode']`. -/
def create_wide_format_dataframe (catalog : List ObisInfo)
    (df : List MeteringRecord) : Option WideTable :=
  if (df.filter fun r => r.data_available).isEmpty then none
  else
    let df_filtered := (df.filter fun r => r.data_available).map roundRecord
    let obis_descriptions :=
      catalog.foldl (fun d i => dictInsert d i.code i.description) []
    let dataRows := (sortLe str3Le (df_filtered.map wideKeyOf).dedup).map
      (wideRowFor df_filtered)
    let allCols := ((dataRows.map fun w => w.cells.map Prod.fst).flatten).dedup
    let ccols := sortLe strLe (allCols.filter fun c =>
      strLeadsWith c "1-" && containsSub c ":1.")
    let pcols := sortLe strLe (allCols.filter fun c =>
      strLeadsWith c "1-" && containsSub c ":2.")
    some
      { dataRows := dataRows, consumption_cols := ccols,
        production_cols := pcols,
        totalsRow := (ccols ++ pcols).map fun c =>
          (c, round2 ((dataRows.filterMap fun w => cellValue w c).sum)),
        descriptionRow := (ccols ++ pcols).map fun c =>
          (c, ((obis_descriptions.lookup c).getD "")) }

/-- `category_map` fixup of `calculate_ratios`. -/
def mapCategory (c : String) : String :=
  if c = "C" then "Consumption" else if c = "P" then "Production" else c

/-- `df[df['obis_category'] == cat]['value'].sum()` over the loaded rows
(pandas `sum` skips nulls and yields 0 on an empty selection). -/
def sumByCategory (rows : List DetailRow) (cat : String) : ℚ :=
  ((rows.filter fun r => r.obis_category == cat).filterMap fun r => r.value).sum

/-- `df[df['obis_code'] == code]['value'].sum()`. -/
def sumByCode (rows : List DetailRow) (code : String) : ℚ :=
  ((rows.filter fun r => r.obis_code == code).filterMap fun r => r.value).sum

/-- `df[df['obis_code'].isin(codes)]['value'].sum()`. -/
def sumByCodes (rows : List DetailRow) (codes : List String) : ℚ :=
  ((rows.filter fun r => codes.contains r.obis_code).filterMap
    fun r => r.value).sum

/-- The dict `calculate_ratios` returns. -/
structure RatioReport where
  total_consumption : ℚ
  total_production : ℚ
  measured_consumption : ℚ
  measured_production : ℚ
  energy_bought : ℚ
  energy_shared_consumption : ℚ
  energy_shared_production : ℚ
  energy_sold : ℚ
  production_to_consumption_ratio : ℚ
  self_consumption_ratio : ℚ
  self_sufficiency_ratio : ℚ
  energy_bought_ratio : ℚ
  energy_sold_ratio : ℚ
deriving DecidableEq

/-- The rows after the abbreviated-category fixup of `calculate_ratios`. -/
def mapDf (rows : List DetailRow) : List DetailRow :=
  if rows.any fun r => r.obis_category == "C" || r.obis_category == "P"
  then rows.map fun r => { r with obis_category := mapCategory r.obis_category }
  else rows

/-- `calculate_ratios` of `analyse_monthly_data.py`, over the period's rows
loaded from `metering_data`: empty input yields no report; abbreviated
categories are mapped to the full names; every ratio is guarded by
`if denominator > 0 else 0`. -/
def calculate_ratios (rows : List DetailRow) : Option RatioReport :=
  if rows.isEmpty then none
  else
    let df := mapDf rows
    let total_consumption := sumByCategory df "Consumption"
    let total_production := sumByCategory df "Production"
    let measured_consumption := sumByCode df "1-1:1.29.0"
    let energy_bought := sumByCode df "1-65:1.29.9"
    let energy_shared_consumption := sumByCodes df
      ["1-65:1.29.1", "1-65:1.29.2", "1-65:1.29.3", "1-65:1.29.4"]
    let measured_production := sumByCode df "1-1:2.29.0"
    let energy_shared_production := sumByCodes df
      ["1-65:2.29.1", "1-65:2.29.2", "1-65:2.29.3", "1-65:2.29.4"]
    let energy_sold := sumByCode df "1-65:2.29.9"
    some
      { total_consumption := round2 total_consumption,
        total_production := round2 total_production,
        measured_consumption := round2 measured_consumption,
        measured_production := round2 measured_production,
        energy_bought := round2 energy_bought,
        energy_shared_consumption := round2 energy_shared_consumption,
        energy_shared_production := round2 energy_shared_production,
        energy_sold := round2 energy_sold,
        production_to_consumption_ratio := if total_consumption > 0
          then round2 (total_production / total_consumption * 100) else 0,
        self_consumption_ratio := if measured_consumption > 0
          then round2 (energy_shared_consumption / measured_consumption * 100)
          else 0,
        self_sufficiency_ratio := if measured_consumption > 0
          then round2 ((measured_consumption - energy_bought) /
            measured_consumption * 100)
          else 0,
        energy_bought_ratio := if measured_consumption > 0
          then round2 (energy_bought / measured_consumption * 100) else 0,
        energy_sold_ratio := if measured_production > 0
          then round2 (energy_sold / measured_production * 100) else 0 }

/-- Claim C9: for every supplied month outside 1..12, period resolution fails
with the invalid-month error instead of returning a date range. -/
theorem supplied_month_out_of_range_fails (ty tm : Int) (year : Option Int)
    (m : Int) (h : m < 1 ∨ 12 < m) :
    calculate_month_dates ty tm year (some m) = .error "InvalidMonth" := by
  unfold calculate_month_dates
  simp only
  rw [if_pos h]

/-- Witness for `supplied_month_out_of_range_fails` at month 13. -/
theorem supplied_month_out_of_range_fails_witness :
    calculate_month_dates 2025 6 none (some 13) = .error "InvalidMonth" :=
  supplied_month_out_of_range_fails 2025 6 none 13 (by decide)

/-- Claim C6: with the month omitted the resolver picks the month preceding
the current one; if that month is December and the year was omitted too, the
year becomes the current year minus one, while a supplied year is kept; an
omitted year otherwise resolves to the current year. -/
theorem omitted_month_resolves_to_previous (ty tm : Int)
    (h1 : 1 ≤ tm) (h2 : tm ≤ 12) :
    (∃ d, calculate_month_dates ty tm none none = .ok d ∧
      d.month = (if tm = 1 then 12 else tm - 1) ∧
      d.year = (if tm = 1 then ty - 1 else ty)) ∧
    (∀ y : Int, ∃ d, calculate_month_dates ty tm (some y) none = .ok d ∧
      d.month = (if tm = 1 then 12 else tm - 1) ∧ d.year = y) := by
  by_cases htm : tm = 1
  · subst htm
    constructor
    · exact ⟨_, rfl, rfl, rfl⟩
    · intro y
      exact ⟨_, rfl, rfl, rfl⟩
  · have hpm : ¬(tm - 1 = 12) := by omega
    have hrange : ¬(tm - 1 < 1 ∨ 12 < tm - 1) := by omega
    constructor
    · have hc : calculate_month_dates ty tm none none =
          .ok { start_date := padNum 4 ty ++ "-" ++ padNum 2 (tm - 1) ++ "-" ++ padNum 2 1,
                end_date := padNum 4 ty ++ "-" ++ padNum 2 (tm - 1) ++ "-" ++
                  padNum 2 (monthLastDay ty (tm - 1)),
                year := ty, month := tm - 1 } := by
        unfold calculate_month_dates
        simp only [htm, if_false, hpm, false_and, if_neg hrange]
        rfl
      exact ⟨_, hc, by simp [htm], by simp [htm]⟩
    · intro y
      have hc : calculate_month_dates ty tm (some y) none =
          .ok { start_date := padNum 4 y ++ "-" ++ padNum 2 (tm - 1) ++ "-" ++ padNum 2 1,
                end_date := padNum 4 y ++ "-" ++ padNum 2 (tm - 1) ++ "-" ++
                  padNum 2 (monthLastDay y (tm - 1)),
                year := y, month := tm - 1 } := by
        unfold calculate_month_dates
        simp only [htm, if_false, hpm, false_and, if_neg hrange]
        rfl
      exact ⟨_, hc, by simp [htm], by simp [htm]⟩

/-- Witness for `omitted_month_resolves_to_previous`: in January 2025 the
default period is December 2024. -/
theorem omitted_month_resolves_to_previous_witness :
    ∃ d, calculate_month_dates 2025 1 none none = .ok d ∧
      d.month = 12 ∧ d.year = 2024 := by
  obtain ⟨⟨d, hd, hm, hy⟩, _⟩ :=
    omitted_month_resolves_to_previous 2025 1 (by decide) (by decide)
  exact ⟨d, hd, by simpa using hm, by simpa using hy⟩

/-- Claim C10: when no input record is available the upsert returns before
deleting anything, leaving the stored data for the period untouched. -/
theorem all_unavailable_is_noop (s : Store) (df : List MeteringRecord)
    (y m : Int) (h : ∀ r ∈ df, r.data_available = false) :
    save_to_database s df y m = s := by
  have hf : df.filter (fun r => r.data_available) = [] := by
    rw [List.filter_eq_nil_iff]
    intro a ha
    simp [h a ha]
  unfold save_to_database
  simp [hf]

/-- Builder for the concrete example records used by the witnesses below. -/
def mkExRecord (nm mid code cat desc : String) (q : ℚ) (av : Bool) :
    MeteringRecord :=
  { year := 2024, month := 3, start_date := "2024-03-01",
    end_date := "2024-03-31", entity_type := "consumer", entity_name := nm,
    meter_id := mid, obis_code := code, obis_category := cat,
    obis_description := desc, value := if av then some q else none,
    unit := some "kWh", started_at := none, ended_at := none,
    calculated := none, type := none, data_available := av }

/-- A store holding one detail row and one summary for April 2024. -/
def exStorePrior : Store :=
  ⟨[{ year := 2024, month := 4, entity_type := "consumer", entity_name := "A",
      meter_id := "M1", obis_code := "1-1:1.29.0",
      obis_category := "Consumption", obis_description := "measured",
      value := some 5, unit := some "kWh", started_at := none,
      ended_at := none, calculated := none, type := none }],
   [{ year := 2024, month := 4, obis_code := "1-1:1.29.0",
      obis_category := "Consumption", obis_description := "measured",
      total_value := 5, num_meters := 1, unit := some "kWh" }]⟩

/-- Witness for `all_unavailable_is_noop`: an all-unavailable fetch leaves a
non-empty store unchanged. -/
theorem all_unavailable_is_noop_witness :
    save_to_database exStorePrior
      [mkExRecord "A" "M1" "1-1:1.29.0" "Consumption" "measured" 0 false]
      2024 4 = exStorePrior :=
  all_unavailable_is_noop exStorePrior
    [mkExRecord "A" "M1" "1-1:1.29.0" "Consumption" "measured" 0 false]
    2024 4 (by decide)

/-- Claim C7 (counterexample): a network timeout and a non-2xx/non-404
response return exactly the `None` outcome of an HTTP 404 — nothing the
caller receives distinguishes a transient failure from unavailability. -/
theorem fetch_failures_indistinguishable :
    fetch_metering_data .timeout =
        fetch_metering_data (.response 404 (.parsed [] none)) ∧
    fetch_metering_data (.response 500
        (.parsed [{ value := some 1, startedAt := none, endedAt := none,
                    calculated := none, type := none }] none)) =
      fetch_metering_data (.response 404 (.parsed [] none)) ∧
    fetch_metering_data .timeout = none := by
  exact ⟨rfl, rfl, rfl⟩

/-- Claim C7 (amended): every outcome of a call — 404, other non-200 status,
timeout, request error, malformed payload, empty series — yields the same
`None` result, only a 200 response with a non-empty parsed series yields the
payload, and the orchestrator materialises a `data_available = false` row for
every `None` outcome. -/
theorem fetch_outcome_classification (r : HttpResult) :
    (∀ p ts u, r = .response 200 (.parsed (p :: ts) u) →
      fetch_metering_data r = some (.parsed (p :: ts) u)) ∧
    ((∀ p ts u, r ≠ .response 200 (.parsed (p :: ts) u)) →
      fetch_metering_data r = none) ∧
    (∀ y m sd ed et nm mid oi, fetch_metering_data r = none →
      (rowOf y m sd ed et nm mid oi (fetch_metering_data r)).data_available
        = false) := by
  refine ⟨?_, ?_, ?_⟩
  · rintro p ts u rfl
    rfl
  · intro hne
    match r with
    | .timeout => rfl
    | .requestError => rfl
    | .response status body =>
      by_cases h404 : status = 404
      · subst h404
        rfl
      · by_cases h200 : status = 200
        · subst h200
          match body with
          | .malformed => rfl
          | .parsed [] u => rfl
          | .parsed (p :: ts) u => exact absurd rfl (hne p ts u)
        · simp [fetch_metering_data, h404, h200]
  · intro y m sd ed et nm mid oi h
    rw [h]
    rfl

/-- Witness for `fetch_outcome_classification`: a timeout yields `None` and
an unavailable row. -/
theorem fetch_outcome_classification_witness :
    fetch_metering_data .timeout = none ∧
    (rowOf 2024 3 "s" "e" "consumer" "A" "M1"
      { code := "1-1:1.29.0", category := "Consumption",
        description := "measured" }
      (fetch_metering_data .timeout)).data_available = false := by
  refine ⟨(fetch_outcome_classification .timeout).2.1 ?_,
    (fetch_outcome_classification .timeout).2.2 2024 3 "s" "e" "consumer"
      "A" "M1" _ ((fetch_outcome_classification .timeout).2.1 ?_)⟩ <;>
    exact fun p ts u h => HttpResult.noConfusion h

/-- Claim C3: every ratio whose denominator is zero evaluates to 0 — the
`if denominator > 0 else 0` guard is applied to all five ratios; in
particular a zero measured consumption zeroes the self-consumption,
self-sufficiency and energy-bought ratios. -/
theorem zero_denominator_yields_zero (rows : List DetailRow)
    (rep : RatioReport) (h : calculate_ratios rows = some rep) :
    (sumByCategory (mapDf rows) "Consumption" = 0 →
      rep.production_to_consumption_ratio = 0) ∧
    (sumByCode (mapDf rows) "1-1:1.29.0" = 0 →
      rep.self_consumption_ratio = 0 ∧ rep.self_sufficiency_ratio = 0 ∧
        rep.energy_bought_ratio = 0) ∧
    (sumByCode (mapDf rows) "1-1:2.29.0" = 0 → rep.energy_sold_ratio = 0) := by
  unfold calculate_ratios at h
  by_cases he : rows.isEmpty
  · simp [he] at h
  · rw [if_neg he] at h
    injection h with h
    subst h
    refine ⟨fun hden => by simp [hden], fun hden => ?_, fun hden => by simp [hden]⟩
    exact ⟨by simp [hden], by simp [hden], by simp [hden]⟩

/-- Rows of a period with production data only (measured consumption 0). -/
def exRatioRows : List DetailRow :=
  [{ year := 2024, month := 3, entity_type := "producer", entity_name := "P1",
     meter_id := "M3", obis_code := "1-1:2.29.0",
     obis_category := "Production", obis_description := "measured production",
     value := some 10, unit := some "kWh", started_at := none,
     ended_at := none, calculated := none, type := none }]

/-- Witness for `zero_denominator_yields_zero` on `exRatioRows`. -/
theorem zero_denominator_yields_zero_witness :
    ∃ rep, calculate_ratios exRatioRows = some rep ∧
      rep.self_consumption_ratio = 0 ∧ rep.self_sufficiency_ratio = 0 ∧
      rep.energy_bought_ratio = 0 := by
  obtain ⟨h1, h2, h3⟩ :=
    (zero_denominator_yields_zero exRatioRows _ rfl).2.1 (by decide)
  exact ⟨_, rfl, h1, h2, h3⟩

/-- Characterisation of the `__init__` classification loop: a successful run
yields exactly the catalog entries whose first digit after the colon is `1`
(consumption) resp. `2` (production), appended to the accumulator. -/
theorem initCodes_spec : ∀ (catalog : List ObisInfo)
    (acc : List ObisInfo × List ObisInfo) (cc pc : List ObisInfo),
    initCodes catalog acc = .ok (cc, pc) →
    cc = acc.1 ++ catalog.filter (fun i => firstDigit i.code == some '1') ∧
    pc = acc.2 ++ catalog.filter (fun i => firstDigit i.code == some '2') := by
  intro catalog
  induction catalog with
  | nil =>
    intro acc cc pc h
    simp only [initCodes] at h
    injection h with h
    simp [h]
  | cons i rest ih =>
    intro acc cc pc h
    simp only [initCodes] at h
    rcases hd : firstDigit i.code with _ | d
    · rw [hd, if_pos rfl] at h
      exact absurd h (by simp)
    · rw [hd, if_neg (by simp)] at h
      by_cases h1 : d = '1'
      · subst h1
        rw [if_pos rfl] at h
        obtain ⟨e1, e2⟩ := ih _ _ _ h
        constructor
        · rw [e1]
          simp [List.filter_cons, hd]
        · rw [e2]
          simp [List.filter_cons, hd]
      · rw [if_neg (by simp [h1])] at h
        by_cases h2 : d = '2'
        · subst h2
          rw [if_pos rfl] at h
          obtain ⟨e1, e2⟩ := ih _ _ _ h
          constructor
          · rw [e1]
            simp [List.filter_cons, hd]
          · rw [e2]
            simp [List.filter_cons, hd]
        · rw [if_neg (by simp [h2])] at h
          obtain ⟨e1, e2⟩ := ih _ _ _ h
          constructor
          · rw [e1]
            simp [List.filter_cons, hd, h1]
          · rw [e2]
            simp [List.filter_cons, hd, h2]

/-- Claim C8: every code the catalog accepts lands in exactly one of the two
categories, membership being determined solely by the digit after the first
colon (`1` consumption, `2` production) and independent of the order in which
the catalog entries are loaded. -/
theorem obis_classification_by_digit (catalog cc pc : List ObisInfo)
    (h : initCodes catalog ([], []) = .ok (cc, pc)) (i : ObisInfo) :
    (i ∈ cc ↔ i ∈ catalog ∧ firstDigit i.code = some '1') ∧
    (i ∈ pc ↔ i ∈ catalog ∧ firstDigit i.code = some '2') ∧
    ¬(i ∈ cc ∧ i ∈ pc) ∧
    (∀ catalog' cc' pc', catalog.Perm catalog' →
      initCodes catalog' ([], []) = .ok (cc', pc') →
      ((i ∈ cc' ↔ i ∈ cc) ∧ (i ∈ pc' ↔ i ∈ pc))) := by
  obtain ⟨e1, e2⟩ := initCodes_spec catalog ([], []) cc pc h
  have hcc : i ∈ cc ↔ i ∈ catalog ∧ firstDigit i.code = some '1' := by
    rw [e1]
    simp [List.mem_filter]
  have hpc : i ∈ pc ↔ i ∈ catalog ∧ firstDigit i.code = some '2' := by
    rw [e2]
    simp [List.mem_filter]
  refine ⟨hcc, hpc, ?_, ?_⟩
  · rintro ⟨h1, h2⟩
    have d1 := (hcc.mp h1).2
    have d2 := (hpc.mp h2).2
    rw [d1] at d2
    exact absurd d2 (by simp)
  · intro catalog' cc' pc' hperm h'
    obtain ⟨e1', e2'⟩ := initCodes_spec catalog' ([], []) cc' pc' h'
    constructor
    · rw [e1', hcc]
      simp [List.mem_filter, hperm.mem_iff]
    · rw [e2', hpc]
      simp [List.mem_filter, hperm.mem_iff]

/-- The two-code catalog used by the concrete witnesses. -/
def exCatalog : List ObisInfo :=
  [{ code := "1-1:1.29.0", category := "Consumption",
     description := "measured consumption" },
   { code := "1-1:2.29.0", category := "Production",
     description := "measured production" }]

/-- Witness for `obis_classification_by_digit` on `exCatalog`. -/
theorem obis_classification_by_digit_witness :
    ∃ cc pc, initCodes exCatalog ([], []) = .ok (cc, pc) ∧
      ({ code := "1-1:1.29.0", category := "Consumption",
         description := "measured consumption" } : ObisInfo) ∈ cc := by
  have hrun : initCodes exCatalog ([], []) =
      .ok ([{ code := "1-1:1.29.0", category := "Consumption",
              description := "measured consumption" }],
           [{ code := "1-1:2.29.0", category := "Production",
              description := "measured production" }]) := by rfl
  refine ⟨_, _, hrun, ?_⟩
  exact (obis_classification_by_digit exCatalog _ _ hrun _).1.mpr
    ⟨by simp [exCatalog], by decide⟩

/-- The materialised row always carries the entity type it was built for. -/
theorem rowOf_entity_type (y m : Int) (sd ed et nm mid : String)
    (oi : ObisInfo) (d : Option ApiBody) :
    (rowOf y m sd ed et nm mid oi d).entity_type = et := by
  match d with
  | none => rfl
  | some .malformed => rfl
  | some (.parsed [] u) => rfl
  | some (.parsed (p :: ts) u) => rfl

/-- The materialised row always carries the OBIS code it was built for. -/
theorem rowOf_obis_code (y m : Int) (sd ed et nm mid : String)
    (oi : ObisInfo) (d : Option ApiBody) :
    (rowOf y m sd ed et nm mid oi d).obis_code = oi.code := by
  match d with
  | none => rfl
  | some .malformed => rfl
  | some (.parsed [] u) => rfl
  | some (.parsed (p :: ts) u) => rfl

/-- Flattening a map whose blocks all have length `n` multiplies the length. -/
theorem flatten_map_length {α β : Type} (l : List α) (f : α → List β) (n : Nat)
    (h : ∀ x ∈ l, (f x).length = n) :
    ((l.map f).flatten).length = l.length * n := by
  induction l with
  | nil => simp
  | cons a t ih =>
    have ht := ih (fun x hx => h x (by simp [hx]))
    simp [List.flatten_cons, h a (by simp), ht, Nat.succ_mul, Nat.add_comm]

/-- Every code the classification loop put into the consumption list has
first digit `1`; every production code has first digit `2`. -/
theorem mem_codes_digit (catalog cc pc : List ObisInfo)
    (hcat : initCodes catalog ([], []) = .ok (cc, pc)) :
    (∀ oi ∈ cc, firstDigit oi.code = some '1') ∧
    (∀ oi ∈ pc, firstDigit oi.code = some '2') := by
  obtain ⟨e1, e2⟩ := initCodes_spec catalog ([], []) cc pc hcat
  constructor
  · intro oi hoi
    rw [e1] at hoi
    have h2 : oi ∈ catalog ∧ firstDigit oi.code = some '1' := by simpa using hoi
    exact h2.2
  · intro oi hoi
    rw [e2] at hoi
    have h2 : oi ∈ catalog ∧ firstDigit oi.code = some '2' := by simpa using hoi
    exact h2.2

/-- Claim C2: one long-form record is emitted per (consumer, consumption
code) and (producer, production code) pair — `C*nc + P*np` records in all,
whatever every individual call returns — and an entity is never paired with a
code of the opposite category. -/
theorem fetch_emits_full_grid (catalog cc pc : List ObisInfo)
    (cnames cmeters pnames pmeters : List String) (y m : Int) (sd ed : String)
    (http : String → String → HttpResult)
    (hcat : initCodes catalog ([], []) = .ok (cc, pc))
    (hc : cnames.length = cmeters.length)
    (hp : pnames.length = pmeters.length) :
    (fetch_all_data cnames cmeters pnames pmeters cc pc y m sd ed http).length
      = cnames.length * cc.length + pnames.length * pc.length ∧
    ∀ r ∈ fetch_all_data cnames cmeters pnames pmeters cc pc y m sd ed http,
      (r.entity_type = "consumer" ∧ firstDigit r.obis_code = some '1') ∨
      (r.entity_type = "producer" ∧ firstDigit r.obis_code = some '2') := by
  obtain ⟨hdig1, hdig2⟩ := mem_codes_digit catalog cc pc hcat
  constructor
  · unfold fetch_all_data
    rw [List.length_append]
    rw [flatten_map_length _ _ cc.length (fun x _ => by simp)]
    rw [flatten_map_length _ _ pc.length (fun x _ => by simp)]
    rw [List.length_zip, List.length_zip, hc, hp, Nat.min_self, Nat.min_self]
  · intro r hr
    unfold fetch_all_data at hr
    rcases List.mem_append.mp hr with hside | hside
    · obtain ⟨blk, hblk, hrblk⟩ := List.mem_flatten.mp hside
      obtain ⟨nm, _, rfl⟩ := List.mem_map.mp hblk
      obtain ⟨oi, hoi, rfl⟩ := List.mem_map.mp hrblk
      exact Or.inl ⟨rowOf_entity_type _ _ _ _ _ _ _ _ _,
        by rw [rowOf_obis_code]; exact hdig1 oi hoi⟩
    · obtain ⟨blk, hblk, hrblk⟩ := List.mem_flatten.mp hside
      obtain ⟨nm, _, rfl⟩ := List.mem_map.mp hblk
      obtain ⟨oi, hoi, rfl⟩ := List.mem_map.mp hrblk
      exact Or.inr ⟨rowOf_entity_type _ _ _ _ _ _ _ _ _,
        by rw [rowOf_obis_code]; exact hdig2 oi hoi⟩

/-- Witness for `fetch_emits_full_grid`: two consumers, one producer, one
code of each category, every call timing out — still 2*1 + 1*1 = 3 records. -/
theorem fetch_emits_full_grid_witness :
    (fetch_all_data ["A", "B"] ["M1", "M2"] ["P1"] ["M3"]
        [{ code := "1-1:1.29.0", category := "Consumption",
           description := "measured consumption" }]
        [{ code := "1-1:2.29.0", category := "Production",
           description := "measured production" }]
        2024 3 "2024-03-01" "2024-03-31" (fun _ _ => .timeout)).length
      = 2 * 1 + 1 * 1 :=
  (fetch_emits_full_grid exCatalog _ _ ["A", "B"] ["M1", "M2"] ["P1"] ["M3"]
    2024 3 "2024-03-01" "2024-03-31" (fun _ _ => .timeout)
    (by rfl) (by rfl) (by rfl)).1

/-- Two available records of the same entity (two meters) in one group. -/
def exDupRecords : List MeteringRecord :=
  [mkExRecord "A" "M1" "1-1:1.29.0" "Consumption" "measured" 10 true,
   mkExRecord "A" "M2" "1-1:1.29.0" "Consumption" "measured" 20 true]

/-- Claim C4 (counterexample): with two available rows of the same entity in
one `(obis_code, category, description)` group, the stored summary has
`num_meters = 2` although only one distinct entity contributed — pandas
`'count'` counts rows, not distinct entities. -/
theorem num_meters_not_distinct_entities :
    ((save_to_database ⟨[], []⟩ exDupRecords 2024 3).monthly_summaries.map
      fun t => t.num_meters) = [2] ∧
    (((exDupRecords.filter fun r => r.data_available).map
      fun r => r.entity_name).dedup).length = 1 := by
  exact ⟨rfl, rfl⟩

/-- Group length transfer: filtering the rounded available rows by group key
counts the same rows as filtering the raw input by availability and key. -/
theorem group_length_eq (df : List MeteringRecord)
    (k : String × String × String) :
    (((df.filter fun r => r.data_available).map roundRecord).filter
      fun r => summaryKeyOf r == k).length
    = (df.filter fun r => r.data_available && summaryKeyOf r == k).length := by
  induction df with
  | nil => rfl
  | cons a rest ih =>
    have hkey : summaryKeyOf (roundRecord a) = summaryKeyOf a := rfl
    by_cases hav : a.data_available <;>
      by_cases hk : (summaryKeyOf a == k) = true <;>
        simp [List.filter_cons, hav, hk, hkey, ih]

/-- Claim C4 (amended): each stored summary's `num_meters` equals the number
of available detail rows of its `(obis_code, category, description)` group —
one per stored row, counting an entity once per contributing meter reading,
not the number of distinct entities. -/
theorem num_meters_counts_group_rows (df : List MeteringRecord) (y m : Int)
    (t : SummaryRow)
    (ht : t ∈ summariesOf y m
      ((df.filter fun r => r.data_available).map roundRecord)) :
    t.num_meters = (df.filter fun r => r.data_available && summaryKeyOf r ==
      (t.obis_code, t.obis_category, t.obis_description)).length := by
  obtain ⟨k, hk, rfl⟩ := List.mem_map.mp ht
  show (((df.filter fun r => r.data_available).map roundRecord).filter
      fun r => summaryKeyOf r == k).length = _
  rw [group_length_eq]

/-- Witness for `num_meters_counts_group_rows` on `exDupRecords`. -/
theorem num_meters_counts_group_rows_witness :
    ∃ t ∈ summariesOf 2024 3
        ((exDupRecords.filter fun r => r.data_available).map roundRecord),
      t.num_meters = 2 ∧
      t.num_meters = (exDupRecords.filter fun r =>
        r.data_available && summaryKeyOf r ==
          (t.obis_code, t.obis_category, t.obis_description)).length :=
  ⟨_, List.mem_cons_self _ _, rfl,
    num_meters_counts_group_rows exDupRecords 2024 3 _
      (List.mem_cons_self _ _)⟩

/-- Two available records: meter M1 has code `1-1:1.29.0`, meter M2 only
`1-65:1.29.9`. -/
def exWideRecords : List MeteringRecord :=
  [mkExRecord "A" "M1" "1-1:1.29.0" "Consumption" "measured" 50 true,
   mkExRecord "B" "M2" "1-65:1.29.9" "Consumption" "remaining" 20 true]

/-- Claim C5 (code divergence): column `1-1:1.29.0` exists in the wide table,
yet meter M2's data row carries no value for it (pandas NaN) instead of the
claimed 0 — `reindex(columns=..., fill_value=0)` only fills columns that are
missing altogether, and every code column already exists, so NaN cells of
meters lacking a code survive. -/
theorem wide_format_missing_cell_not_zero :
    ∃ t, create_wide_format_dataframe exCatalog exWideRecords = some t ∧
      t.consumption_cols = ["1-1:1.29.0", "1-65:1.29.9"] ∧
      (t.dataRows.map fun w => (w.name, (cellValue w "1-1:1.29.0").isSome))
        = [("A", true), ("B", false)] ∧
      (t.totalsRow.map fun p => p.1) = ["1-1:1.29.0", "1-65:1.29.9"] := by
  exact ⟨_, rfl, rfl, rfl, rfl⟩

/-- Filtering twice with the same predicate filters once. -/
theorem filter_self_idem {α : Type} (p : α → Bool) (l : List α) :
    (l.filter p).filter p = l.filter p := by
  induction l with
  | nil => rfl
  | cons a t ih => by_cases h : p a <;> simp [List.filter_cons, h, ih]

/-- The period delete distributes over appended tables. -/
theorem delMd_append (l1 l2 : List DetailRow) (y m : Int) :
    delMd (l1 ++ l2) y m = delMd l1 y m ++ delMd l2 y m :=
  List.filter_append _ _

/-- Deleting a period twice deletes it once. -/
theorem delMd_delMd (l : List DetailRow) (y m : Int) :
    delMd (delMd l y m) y m = delMd l y m :=
  filter_self_idem _ _

/-- The period delete distributes over appended summary tables. -/
theorem delMs_append (l1 l2 : List SummaryRow) (y m : Int) :
    delMs (l1 ++ l2) y m = delMs l1 y m ++ delMs l2 y m :=
  List.filter_append _ _

/-- Deleting a summary period twice deletes it once. -/
theorem delMs_delMs (l : List SummaryRow) (y m : Int) :
    delMs (delMs l y m) y m = delMs l y m :=
  filter_self_idem _ _

/-- Unfolding of the detail-table disjointness check. -/
theorem disjointByD_iff (tbl newD : List DetailRow) :
    disjointByD tbl newD = true ↔
      ∀ n ∈ newD, ∀ t ∈ tbl, ¬(dKey t = dKey n) := by
  simp [disjointByD, List.all_eq_true]

/-- Unfolding of the summary-table disjointness check. -/
theorem disjointByS_iff (tbl newS : List SummaryRow) :
    disjointByS tbl newS = true ↔
      ∀ n ∈ newS, ∀ t ∈ tbl, ¬(sKey t = sKey n) := by
  simp [disjointByS, List.all_eq_true]

/-- A committed insert had a disjoint detail table. -/
theorem insertOkB_disjD (md : List DetailRow) (ms : List SummaryRow)
    (newD : List DetailRow) (newS : List SummaryRow)
    (h : insertOkB md ms newD newS = true) : disjointByD md newD = true := by
  simp [insertOkB, Bool.and_eq_true] at h
  tauto

/-- A committed insert had a disjoint summary table. -/
theorem insertOkB_disjS (md : List DetailRow) (ms : List SummaryRow)
    (newD : List DetailRow) (newS : List SummaryRow)
    (h : insertOkB md ms newD newS = true) : disjointByS ms newS = true := by
  simp [insertOkB, Bool.and_eq_true] at h
  tauto

/-- The transactional replace of `save_to_database` is idempotent for every
store and every new row set: a successful commit makes the second run replace
exactly what the first inserted, and any constraint failure rolls the second
run back onto the first run's result. -/
theorem upsertCore_idem (s : Store) (y m : Int) (newD : List DetailRow)
    (newS : List SummaryRow) :
    upsertCore (upsertCore s y m newD newS) y m newD newS
      = upsertCore s y m newD newS := by
  by_cases hok : insertOkB (delMd s.metering_data y m)
      (delMs s.monthly_summaries y m) newD newS = true
  · have h1 : upsertCore s y m newD newS =
        ⟨delMd s.metering_data y m ++ newD,
         delMs s.monthly_summaries y m ++ newS⟩ := by
      unfold upsertCore
      rw [if_pos hok]
    rw [h1]
    by_cases hD : delMd newD y m = []
    · by_cases hS : delMs newS y m = []
      · unfold upsertCore
        simp only [delMd_append, delMs_append, delMd_delMd, delMs_delMs,
          hD, hS, List.append_nil]
        split <;> rfl
      · obtain ⟨t, htmem⟩ := List.exists_mem_of_ne_nil _ hS
        have ht1 : t ∈ newS := List.mem_of_mem_filter htmem
        have hok2 : insertOkB (delMd s.metering_data y m ++ delMd newD y m)
            (delMs s.monthly_summaries y m ++ delMs newS y m)
            newD newS = false := by
          rw [Bool.eq_false_iff]
          intro hc
          exact ((disjointByS_iff _ _).mp (insertOkB_disjS _ _ _ _ hc) t ht1 t
            (List.mem_append_right _ htmem)) rfl
        unfold upsertCore
        simp only [delMd_append, delMs_append, delMd_delMd, delMs_delMs]
        rw [if_neg (by simp [hok2])]
    · obtain ⟨d, hdmem⟩ := List.exists_mem_of_ne_nil _ hD
      have hd1 : d ∈ newD := List.mem_of_mem_filter hdmem
      have hok2 : insertOkB (delMd s.metering_data y m ++ delMd newD y m)
          (delMs s.monthly_summaries y m ++ delMs newS y m)
          newD newS = false := by
        rw [Bool.eq_false_iff]
        intro hc
        exact ((disjointByD_iff _ _).mp (insertOkB_disjD _ _ _ _ hc) d hd1 d
          (List.mem_append_right _ hdmem)) rfl
      unfold upsertCore
      simp only [delMd_append, delMs_append, delMd_delMd, delMs_delMs]
      rw [if_neg (by simp [hok2])]
  · have h1 : upsertCore s y m newD newS = s := by
      unfold upsertCore
      rw [if_neg hok]
    rw [h1, h1]

/-- Claim C1: re-running the persistence upsert with the same period and the
same record set leaves the store exactly as a single run does. -/
theorem save_to_database_idempotent (s : Store) (df : List MeteringRecord)
    (y m : Int) :
    save_to_database (save_to_database s df y m) df y m
      = save_to_database s df y m := by
  unfold save_to_database
  by_cases hE : ((df.filter fun r => r.data_available).map roundRecord).isEmpty
    = true
  · simp only [if_pos hE]
  · simp only [if_neg hE]
    exact upsertCore_idem _ _ _ _ _
